import Mathlib

/-
Verification development for the db_cleanup panel (src/main.py).

The program is a Dash administrative panel over a Postgres database.  Its
logic splits into a Schema Inspector (read-only catalog queries:
fetch_tables, fetch_date_columns, fetch_all_columns), statement builders for
the four Guarded Mutator operations (delete_before_date, drop_table,
add_column, drop_column), and four button callbacks (handle_row_delete,
handle_add_column, handle_drop_column, handle_table_delete) plus the
reactive dropdown callback update_columns.

Embedding choices:
* Postgres catalog state is a `Catalog` value (rows of pg_tables and
  information_schema.columns); the inspector functions are the source's SQL
  queries read off as filter/map/sort over that state.
* A generated SQL statement is a `SqlStmt`: the statement text as the list
  of f-string fragments (fixed SQL text vs interpolated identifier) plus the
  list of bound parameters, mirroring exactly how the source builds each
  cur.execute call.
* The database engine is an oracle `Db : SqlStmt → Except String Nat`
  (`.ok rowcount` on success, `.error msg` for a raised exception).
* Each Dash callback is a function from its State inputs (Option values;
  Python truthiness of an optional string is the `falsy` predicate) to a
  `HandlerResult`: the list of statements actually sent to the database and
  either an alert banner (`.ok`) or an uncaught exception propagating out of
  the callback (`.error`).
-/

namespace DbCleanup

/-- A calendar date as handled by the date picker (display format
YYYY-MM-DD). -/
structure Date where
  year : Nat
  month : Nat
  day : Nat
deriving DecidableEq

/-- Strict chronological comparison of dates, the Postgres semantics of
`<` between date values: lexicographic on (year, month, day). -/
def Date.lt (a b : Date) : Bool :=
  if a.year ≠ b.year then decide (a.year < b.year)
  else if a.month ≠ b.month then decide (a.month < b.month)
  else decide (a.day < b.day)

/-- Python truthiness of an optional string input: `None` and the empty
string are falsy (the source guards are `if not table or ...`). -/
def falsy : Option String → Bool
  | none => true
  | some s => s == ""

/- ========================================================
   SQL ORDER BY: lexicographic order on strings
   ======================================================== -/

/-- Lexicographic comparison of character lists, modelling the ordering
used by SQL `ORDER BY` on name columns. -/
def lexLe : List Char → List Char → Bool
  | [], _ => true
  | _ :: _, [] => false
  | a :: as, b :: bs => if a < b then true else if b < a then false else lexLe as bs

/-- Lexicographic `≤` on strings (propositional form of `lexLe`). -/
def StrLE (a b : String) : Prop := lexLe a.data b.data = true

instance : DecidableRel StrLE := fun a b => instDecidableEqBool (lexLe a.data b.data) true

theorem lexLe_total : ∀ as bs : List Char, lexLe as bs = true ∨ lexLe bs as = true
  | [], _ => Or.inl rfl
  | _ :: _, [] => Or.inr rfl
  | a :: as, b :: bs => by
    simp only [lexLe]
    rcases lt_trichotomy a b with h | h | h
    · left
      rw [if_pos h]
    · subst h
      simp only [if_neg (lt_irrefl a)]
      exact lexLe_total as bs
    · right
      rw [if_pos h]

theorem lexLe_trans : ∀ as bs cs : List Char,
    lexLe as bs = true → lexLe bs cs = true → lexLe as cs = true
  | [], _, _, _, _ => rfl
  | _ :: _, [], _, h1, _ => by simp [lexLe] at h1
  | _ :: _, _ :: _, [], _, h2 => by simp [lexLe] at h2
  | a :: as, b :: bs, c :: cs, h1, h2 => by
    simp only [lexLe] at h1 h2 ⊢
    rcases lt_trichotomy a b with hab | hab | hab
    · rcases lt_trichotomy b c with hbc | hbc | hbc
      · rw [if_pos (lt_trans hab hbc)]
      · subst hbc
        rw [if_pos hab]
      · rw [if_neg (lt_asymm hbc), if_pos hbc] at h2
        simp at h2
    · subst hab
      rw [if_neg (lt_irrefl a), if_neg (lt_irrefl a)] at h1
      rcases lt_trichotomy a c with hac | hac | hac
      · rw [if_pos hac]
      · subst hac
        rw [if_neg (lt_irrefl a), if_neg (lt_irrefl a)] at h2 ⊢
        exact lexLe_trans as bs cs h1 h2
      · rw [if_neg (lt_asymm hac), if_pos hac] at h2
        simp at h2
    · rw [if_neg (lt_asymm hab), if_pos hab] at h1
      simp at h1

instance : IsTotal String StrLE := ⟨fun a b => lexLe_total a.data b.data⟩

instance : IsTrans String StrLE := ⟨fun a b c => lexLe_trans a.data b.data c.data⟩

/-- The effect of the `ORDER BY` clause in the inspector queries. -/
def orderBy (l : List String) : List String := List.insertionSort StrLE l

/- ========================================================
   Catalog state and the Schema Inspector (src/main.py 40-75)
   ======================================================== -/

/-- One row of the pg_tables catalog view. -/
structure PgTable where
  schemaname : String
  tablename : String
deriving DecidableEq

/-- One row of the information_schema.columns catalog view. -/
structure InfoColumn where
  table_schema : String
  table_name : String
  column_name : String
  data_type : String
deriving DecidableEq

/-- The catalog state of the external database, as seen by the two catalog
views the program queries. -/
structure Catalog where
  pg_tables : List PgTable
  info_columns : List InfoColumn

/-- The three temporal data types selected by fetch_date_columns. -/
def temporalTypes : List String :=
  ["date", "timestamp without time zone", "timestamp with time zone"]

/-- fetch_tables (src/main.py 40-48): SELECT tablename FROM pg_tables WHERE
schemaname = 'public' ORDER BY tablename. -/
def fetch_tables (cat : Catalog) : List String :=
  orderBy ((cat.pg_tables.filter fun r => r.schemaname == "public").map PgTable.tablename)

/-- fetch_date_columns (src/main.py 50-64): column names of the given table
in the public schema whose data_type is one of the three temporal types,
ORDER BY column_name. -/
def fetch_date_columns (cat : Catalog) (table_name : String) : List String :=
  orderBy ((cat.info_columns.filter fun r =>
      r.table_schema == "public" && r.table_name == table_name &&
        temporalTypes.contains r.data_type).map InfoColumn.column_name)

/-- fetch_all_columns (src/main.py 66-75): all column names of the given
table in the public schema, ORDER BY column_name. -/
def fetch_all_columns (cat : Catalog) (table_name : String) : List String :=
  orderBy ((cat.info_columns.filter fun r =>
      r.table_schema == "public" && r.table_name == table_name).map InfoColumn.column_name)

/- ========================================================
   Generated SQL statements (src/main.py 77-104)
   ======================================================== -/

/-- One fragment of a generated statement's text: fixed SQL text, or an
identifier interpolated into the f-string. -/
inductive Frag
  | lit (s : String)
  | ident (s : String)
deriving DecidableEq

/-- A statement as passed to cur.execute: the f-string text (as its
fragments, in order) and the tuple of bound parameters.  Only date values
are ever bound in this program. -/
structure SqlStmt where
  frags : List Frag
  params : List Date
deriving DecidableEq

/-- The rendered statement text (concatenation of the fragments). -/
def SqlStmt.text (q : SqlStmt) : String :=
  String.join (q.frags.map fun f => match f with | .lit s => s | .ident s => s)

/-- delete_before_date (src/main.py 77-85):
f-string DELETE FROM {table_name} WHERE {column_name} < %s with the cutoff
date bound as the single parameter. -/
def delete_before_date (table_name column_name : String) (cutoff_date : Date) : SqlStmt :=
  { frags := [.lit "DELETE FROM ", .ident table_name, .lit " WHERE ", .ident column_name,
              .lit " < %s"],
    params := [cutoff_date] }

/-- drop_table (src/main.py 87-90): f-string DROP TABLE {table_name}. -/
def drop_table (table_name : String) : SqlStmt :=
  { frags := [.lit "DROP TABLE ", .ident table_name], params := [] }

/-- add_column (src/main.py 92-97):
f-string ALTER TABLE {table_name} ADD COLUMN {column_name} {data_type}. -/
def add_column (table_name column_name data_type : String) : SqlStmt :=
  { frags := [.lit "ALTER TABLE ", .ident table_name, .lit " ADD COLUMN ", .ident column_name,
              .lit " ", .ident data_type],
    params := [] }

/-- drop_column (src/main.py 99-104):
f-string ALTER TABLE {table_name} DROP COLUMN {column_name}. -/
def drop_column (table_name column_name : String) : SqlStmt :=
  { frags := [.lit "ALTER TABLE ", .ident table_name, .lit " DROP COLUMN ", .ident column_name],
    params := [] }

/-- Modelled from the spec: the database engine executing the single
generated statement of delete_before_date (the engine itself is external to
the repository).  `rows` holds the chosen column's value in each row of the
target table; DELETE removes exactly the rows satisfying the WHERE
predicate `column < bound-cutoff`, and cur.rowcount reports the number of
rows affected.  Returns (remaining rows, rowcount). -/
def execDeleteBefore (rows : List Date) (cutoff : Date) : List Date × Nat :=
  let kept := rows.filter fun v => !(Date.lt v cutoff)
  (kept, rows.length - kept.length)

/- ========================================================
   The database oracle and the four button callbacks
   (src/main.py 274-340)
   ======================================================== -/

/-- The database engine as seen by one callback invocation: each executed
statement either succeeds with a rowcount or raises an exception whose
message is the given string. -/
def Db := SqlStmt → Except String Nat

/-- A database oracle on which every statement succeeds. -/
def okDb : Db := fun _ => .ok 1

/-- A database oracle on which every statement raises. -/
def failDb : Db := fun _ => .error "relation events does not exist"

/-- Bootstrap color classes of the alert banners used by the callbacks. -/
inductive Color
  | success
  | warning
  | danger
deriving DecidableEq

/-- A dbc.Alert banner: its text and its color. -/
structure Alert where
  text : String
  color : Color
deriving DecidableEq

/-- Observable result of one callback invocation: the statements sent to
the database, in order, and either the returned alert banner (.ok) or an
exception propagating uncaught out of the callback (.error). -/
structure HandlerResult where
  calls : List SqlStmt
  outcome : Except String Alert

/-- handle_row_delete (src/main.py 282-287).  Guard: `if not table or not
column or not cutoff`.  No try/except: a database exception propagates. -/
def handle_row_delete (db : Db) (table column : Option String) (cutoff : Option Date) :
    HandlerResult :=
  if falsy table ∨ falsy column ∨ cutoff.isNone then
    { calls := [], outcome := .ok { text := "Select table, column and date.", color := .warning } }
  else
    let t := table.getD ""
    let c := column.getD ""
    let d := cutoff.getD ⟨0, 0, 0⟩
    let stmt := delete_before_date t c d
    match db stmt with
    | .ok deleted =>
        { calls := [stmt],
          outcome := .ok { text := s!"✅ Deleted {deleted} rows from {t}", color := .success } }
    | .error e => { calls := [stmt], outcome := .error e }

/-- handle_add_column (src/main.py 297-305).  Guard: `if not table or not
col or not dtype`.  The execution is wrapped in try/except and a raised
exception is shown verbatim as a danger alert. -/
def handle_add_column (db : Db) (table col dtype : Option String) : HandlerResult :=
  if falsy table ∨ falsy col ∨ falsy dtype then
    { calls := [],
      outcome := .ok { text := "Provide table, column name and type.", color := .warning } }
  else
    let t := table.getD ""
    let c := col.getD ""
    let ty := dtype.getD ""
    let stmt := add_column t c ty
    match db stmt with
    | .ok _ =>
        { calls := [stmt],
          outcome := .ok { text := s!"✅ Column '{c}' added to {t}", color := .success } }
    | .error e => { calls := [stmt], outcome := .ok { text := e, color := .danger } }

/-- handle_drop_column (src/main.py 315-326).  Guards: `if not table or not
col or not confirm` then `if col != confirm`.  The execution is wrapped in
try/except and a raised exception is shown verbatim as a danger alert. -/
def handle_drop_column (db : Db) (table col confirm : Option String) : HandlerResult :=
  if falsy table ∨ falsy col ∨ falsy confirm then
    { calls := [],
      outcome := .ok { text := "Select column and confirm name.", color := .warning } }
  else if col ≠ confirm then
    { calls := [],
      outcome := .ok { text := "❌ Column name confirmation mismatch.", color := .danger } }
  else
    let t := table.getD ""
    let c := col.getD ""
    let stmt := drop_column t c
    match db stmt with
    | .ok _ =>
        { calls := [stmt],
          outcome := .ok { text := s!"🔥 Column '{c}' dropped from {t}", color := .success } }
    | .error e => { calls := [stmt], outcome := .ok { text := e, color := .danger } }

/-- handle_table_delete (src/main.py 335-340).  Guard: `if not table or
confirmation != table`.  No try/except: a database exception propagates. -/
def handle_table_delete (db : Db) (table confirmation : Option String) : HandlerResult :=
  if falsy table ∨ confirmation ≠ table then
    { calls := [],
      outcome := .ok { text := "❌ Table name confirmation mismatch.", color := .danger } }
  else
    let t := table.getD ""
    let stmt := drop_table t
    match db stmt with
    | .ok _ =>
        { calls := [stmt],
          outcome := .ok { text := s!"🔥 Table '{t}' deleted.", color := .success } }
    | .error e => { calls := [stmt], outcome := .error e }

/- ========================================================
   Layout wiring (src/main.py 115-272)
   ======================================================== -/

/-- The kinds of input widgets in the Dash layout. -/
inductive WidgetKind
  | dropdown
  | datePicker
  | textInput
  | button
deriving DecidableEq

/-- Widget kinds by component id, read off the layout (src/main.py 115-247):
dcc.Dropdown, dcc.DatePickerSingle, dbc.Input(type="text"), dbc.Button. -/
def widgetKind : String → Option WidgetKind
  | "table_dd" => some .dropdown
  | "date_column_dd" => some .dropdown
  | "cutoff_date" => some .datePicker
  | "all_columns_dd" => some .dropdown
  | "confirm_column_name" => some .textInput
  | "new_column_name" => some .textInput
  | "new_column_type" => some .dropdown
  | "confirm_table_name" => some .textInput
  | "delete_rows_btn" => some .button
  | "add_column_btn" => some .button
  | "drop_column_btn" => some .button
  | "drop_table_btn" => some .button
  | _ => none

/-- Component ids of the State inputs of handle_row_delete
(src/main.py 277-279). -/
def row_delete_states : List String := ["table_dd", "date_column_dd", "cutoff_date"]

/-- Component ids of the State inputs of handle_add_column
(src/main.py 292-294). -/
def add_column_states : List String := ["table_dd", "new_column_name", "new_column_type"]

/-- Component ids of the State inputs of handle_drop_column
(src/main.py 310-312). -/
def drop_column_states : List String := ["table_dd", "all_columns_dd", "confirm_column_name"]

/-- Component ids of the State inputs of handle_table_delete
(src/main.py 331-332). -/
def table_delete_states : List String := ["table_dd", "confirm_table_name"]

/-- The free-text input widgets among a callback's State inputs: the only
widgets through which an operator can type confirmation text. -/
def textInputsOf (states : List String) : List String :=
  states.filter fun w => widgetKind w == some WidgetKind.textInput

/-- A selectable option of a dcc.Dropdown. -/
structure DropdownOption where
  label : String
  value : String
deriving DecidableEq

/-- Options of the table dropdown (src/main.py 129-133): one option per
name returned by fetch_tables. -/
def table_dd_options (cat : Catalog) : List DropdownOption :=
  (fetch_tables cat).map fun t => { label := t, value := t }

/-- The four outputs of the update_columns callback: options and value of
date_column_dd, options and value of all_columns_dd. -/
structure UpdateColumnsOut where
  date_options : List DropdownOption
  date_value : Option String
  all_options : List DropdownOption
  all_value : Option String
deriving DecidableEq

/-- update_columns (src/main.py 253-272): fired whenever table_dd changes;
repopulates both column dropdowns and sets both their values to None. -/
def update_columns (cat : Catalog) (table : Option String) : UpdateColumnsOut :=
  if falsy table then
    { date_options := [], date_value := none, all_options := [], all_value := none }
  else
    let t := table.getD ""
    { date_options := (fetch_date_columns cat t).map fun c => { label := c, value := c },
      date_value := none,
      all_options := (fetch_all_columns cat t).map fun c => { label := c, value := c },
      all_value := none }

/- ========================================================
   Helper lemmas
   ======================================================== -/

theorem not_falsy_some {s : String} (h : s ≠ "") : ¬ (falsy (some s) = true) := by
  simp [falsy, h]

theorem Date.lt_irrefl (d : Date) : Date.lt d d = false := by
  simp [Date.lt]

theorem length_filter_not_add (p : Date → Bool) (l : List Date) :
    (l.filter fun v => !(p v)).length + (l.filter p).length = l.length := by
  induction l with
  | nil => rfl
  | cons a l ih => cases h : p a <;> simp [List.filter_cons, h] <;> omega

/- ========================================================
   Claim theorems
   ======================================================== -/

/-- Claim C5: for every delete-rows-before-date invocation with table,
temporal column and cutoff all present, exactly the rows whose column value
is strictly less than the cutoff are deleted (a row whose value equals the
cutoff is kept) and the operation reports the count of rows deleted; in
particular cutoff 2023-01-01 over values 2022-12-31 and 2023-01-01 deletes
exactly the 2022-12-31 row and reports count 1. -/
theorem C5_delete_strictly_before :
    (∀ (rows : List Date) (cutoff : Date),
        (execDeleteBefore rows cutoff).1 = rows.filter (fun v => !(Date.lt v cutoff)) ∧
        (execDeleteBefore rows cutoff).2 = (rows.filter fun v => Date.lt v cutoff).length ∧
        (∀ v ∈ rows, v = cutoff → v ∈ (execDeleteBefore rows cutoff).1) ∧
        (∀ (db : Db) (t c : String) (n : Nat), t ≠ "" → c ≠ "" →
            db (delete_before_date t c cutoff) = .ok n →
            handle_row_delete db (some t) (some c) (some cutoff) =
              ⟨[delete_before_date t c cutoff],
               .ok ⟨s!"✅ Deleted {n} rows from {t}", Color.success⟩⟩)) ∧
    execDeleteBefore [⟨2022, 12, 31⟩, ⟨2023, 1, 1⟩] ⟨2023, 1, 1⟩ = ([⟨2023, 1, 1⟩], 1) := by
  refine ⟨fun rows cutoff => ⟨rfl, ?_, ?_, ?_⟩, by decide⟩
  · have := length_filter_not_add (fun v => Date.lt v cutoff) rows
    have hle : (rows.filter fun v => !(Date.lt v cutoff)).length ≤ rows.length :=
      List.length_filter_le _ _
    simp only [execDeleteBefore]
    omega
  · intro v hv hveq
    subst hveq
    simp only [execDeleteBefore]
    exact List.mem_filter.mpr ⟨hv, by simp [Date.lt_irrefl]⟩
  · intro db t c n ht hc hdb
    have h1 : ¬(falsy (some t) ∨ falsy (some c) ∨ (some cutoff).isNone) := by
      simp [falsy, ht, hc]
    unfold handle_row_delete
    rw [if_neg h1]
    simp only [Option.getD_some]
    rw [hdb]

/-- Claim C7: for every table, the temporal-column list is a subset of the
all-columns list, and both lists are lexicographically sorted. -/
theorem C7_temporal_subset_sorted :
    ∀ (cat : Catalog) (t : String),
      fetch_date_columns cat t ⊆ fetch_all_columns cat t ∧
      List.Sorted StrLE (fetch_date_columns cat t) ∧
      List.Sorted StrLE (fetch_all_columns cat t) := by
  intro cat t
  refine ⟨?_, ?_, ?_⟩
  · intro x hx
    rw [fetch_date_columns, orderBy, List.mem_insertionSort] at hx
    rw [fetch_all_columns, orderBy, List.mem_insertionSort]
    rcases List.mem_map.mp hx with ⟨r, hr, hcol⟩
    rcases List.mem_filter.mp hr with ⟨hmem, hpred⟩
    exact List.mem_map.mpr
      ⟨r, List.mem_filter.mpr ⟨hmem, (Bool.and_eq_true _ _ |>.mp hpred).1⟩, hcol⟩
  · exact List.sorted_insertionSort StrLE _
  · exact List.sorted_insertionSort StrLE _

/-- A sample catalog used as concrete input for witness theorems: two
public tables, one of which has one temporal and one non-temporal column. -/
def catW : Catalog :=
  { pg_tables := [{ schemaname := "public", tablename := "events" },
                  { schemaname := "public", tablename := "archive_logs" }],
    info_columns :=
      [{ table_schema := "public", table_name := "events",
         column_name := "id", data_type := "integer" },
       { table_schema := "public", table_name := "events",
         column_name := "created_at", data_type := "date" }] }

theorem C7_temporal_subset_sorted_witness :
    fetch_date_columns catW "events" ⊆ fetch_all_columns catW "events" ∧
    List.Sorted StrLE (fetch_date_columns catW "events") ∧
    List.Sorted StrLE (fetch_all_columns catW "events") :=
  C7_temporal_subset_sorted catW "events"

/-- Claim C8: the table-listing operation returns the table names of the
public schema, unique and lexicographically sorted.  Uniqueness rests on
the catalog invariant that pg_tables holds no duplicate table name within
the public schema. -/
theorem C8_tables_sorted_unique :
    ∀ cat : Catalog,
      ((cat.pg_tables.filter fun r => r.schemaname == "public").map PgTable.tablename).Nodup →
      (fetch_tables cat).Nodup ∧ List.Sorted StrLE (fetch_tables cat) := by
  intro cat h
  constructor
  · exact (List.perm_insertionSort StrLE _).nodup_iff.mpr h
  · exact List.sorted_insertionSort StrLE _

theorem C8_tables_sorted_unique_witness :
    (fetch_tables catW).Nodup ∧ List.Sorted StrLE (fetch_tables catW) :=
  C8_tables_sorted_unique catW (by decide)

/-- Claim C9: a column-listing query for a table that is absent from the
schema (no information_schema.columns row for it in the public schema), or
issued while no table is selected, returns an empty sequence rather than an
error. -/
theorem C9_empty_when_absent_or_unselected :
    (∀ (cat : Catalog) (t : String),
        (∀ r ∈ cat.info_columns, r.table_schema = "public" → r.table_name ≠ t) →
        fetch_all_columns cat t = [] ∧ fetch_date_columns cat t = []) ∧
    (∀ cat : Catalog, update_columns cat none =
        { date_options := [], date_value := none, all_options := [], all_value := none }) := by
  constructor
  · intro cat t h
    have hall : ∀ r ∈ cat.info_columns,
        ¬((r.table_schema == "public" && r.table_name == t) = true) := by
      intro r hr hcontra
      rcases Bool.and_eq_true _ _ |>.mp hcontra with ⟨h1, h2⟩
      exact h r hr (beq_iff_eq.mp h1) (beq_iff_eq.mp h2)
    have hdate : ∀ r ∈ cat.info_columns,
        ¬((r.table_schema == "public" && r.table_name == t &&
            temporalTypes.contains r.data_type) = true) := by
      intro r hr hcontra
      exact hall r hr (Bool.and_eq_true _ _ |>.mp hcontra).1
    constructor
    · rw [fetch_all_columns, List.filter_eq_nil_iff.mpr hall]
      rfl
    · rw [fetch_date_columns, List.filter_eq_nil_iff.mpr hdate]
      rfl
  · intro cat
    rfl

theorem C9_empty_when_absent_or_unselected_witness :
    (fetch_all_columns catW "ghost" = [] ∧ fetch_date_columns catW "ghost" = []) ∧
    update_columns catW none =
      { date_options := [], date_value := none, all_options := [], all_value := none } :=
  ⟨C9_empty_when_absent_or_unselected.1 catW "ghost" (by decide),
   C9_empty_when_absent_or_unselected.2 catW⟩

/-- Claim C10: every recomputation of the column dropdowns (fired whenever
the table selection changes, including to no selection) resets both the
date-column selection and the all-columns selection to None, so a column
selected under a previously chosen table never survives as an input to a
later operation on the new table. -/
theorem C10_selection_reset :
    ∀ (cat : Catalog) (table : Option String),
      (update_columns cat table).date_value = none ∧
      (update_columns cat table).all_value = none := by
  intro cat table
  unfold update_columns
  split <;> exact ⟨rfl, rfl⟩

/-- Claim C1: for every drop-column and drop-table invocation, the
confirmation text is compared to the target identifier using exact string
equality — case-sensitive and without trimming — and on mismatch the
attempt is rejected with no statement sent to the database. -/
theorem C1_confirmation_exact :
    (∀ (db : Db) (t c confirm : String), t ≠ "" → c ≠ "" → confirm ≠ "" → confirm ≠ c →
        handle_drop_column db (some t) (some c) (some confirm) =
          ⟨[], .ok ⟨"❌ Column name confirmation mismatch.", Color.danger⟩⟩) ∧
    (∀ (db : Db) (table confirmation : Option String), confirmation ≠ table →
        handle_table_delete db table confirmation =
          ⟨[], .ok ⟨"❌ Table name confirmation mismatch.", Color.danger⟩⟩) := by
  constructor
  · intro db t c confirm ht hc hcf hne
    have h1 : ¬(falsy (some t) ∨ falsy (some c) ∨ falsy (some confirm)) := by
      simp [falsy, ht, hc, hcf]
    have h2 : (some c ≠ some confirm) := fun h => hne (Option.some.inj h).symm
    unfold handle_drop_column
    rw [if_neg h1, if_pos h2]
  · intro db table confirmation hne
    unfold handle_table_delete
    rw [if_pos (Or.inr hne)]

/-- Witness for C1: the spec's own examples — confirmation Orders against
column orders (case difference) and confirmation with a trailing blank
against table orders are both rejected without any statement executing. -/
theorem C1_confirmation_exact_witness :
    handle_drop_column okDb (some "orders") (some "orders") (some "Orders") =
      ⟨[], .ok ⟨"❌ Column name confirmation mismatch.", Color.danger⟩⟩ ∧
    handle_table_delete okDb (some "orders") (some "orders ") =
      ⟨[], .ok ⟨"❌ Table name confirmation mismatch.", Color.danger⟩⟩ :=
  ⟨C1_confirmation_exact.1 okDb "orders" "orders" "Orders"
      (by decide) (by decide) (by decide) (by decide),
   C1_confirmation_exact.2 okDb (some "orders") (some "orders ") (by decide)⟩

/-- Claim C2 is refuted: handle_row_delete consumes no free-text input
widget at all (its callback States are two dropdowns and a date picker, so
there exists no confirmation token an operator could type for it), yet on
this invocation the destructive DELETE statement executes.  Hence the
delete-rows operation is not gated by any confirmation check — only by
presence of its selections.  (handle_add_column is analogous: its only text
input is the new column name, which is never compared to anything.) -/
theorem C2_counterexample :
    textInputsOf row_delete_states = [] ∧
    handle_row_delete okDb (some "events") (some "created_at") (some ⟨2023, 1, 1⟩) =
      ⟨[delete_before_date "events" "created_at" ⟨2023, 1, 1⟩],
       .ok ⟨"✅ Deleted 1 rows from events", Color.success⟩⟩ :=
  ⟨rfl, rfl⟩

/-- Claim C2 (amended): drop column and drop table are gated by an exact
confirmation-text check; delete rows before a cutoff and add column are
gated only by presence of their required inputs, with no confirmation
text.  For every invocation of any of the four, the destructive statement
executes only after the operation's gate has passed. -/
theorem C2_amended_gated :
    (∀ (db : Db) (table column : Option String) (cutoff : Option Date),
        (handle_row_delete db table column cutoff).calls ≠ [] →
        ¬ falsy table ∧ ¬ falsy column ∧ cutoff ≠ none) ∧
    (∀ (db : Db) (table col dtype : Option String),
        (handle_add_column db table col dtype).calls ≠ [] →
        ¬ falsy table ∧ ¬ falsy col ∧ ¬ falsy dtype) ∧
    (∀ (db : Db) (table col confirm : Option String),
        (handle_drop_column db table col confirm).calls ≠ [] →
        (¬ falsy table ∧ ¬ falsy col ∧ ¬ falsy confirm) ∧ col = confirm) ∧
    (∀ (db : Db) (table confirmation : Option String),
        (handle_table_delete db table confirmation).calls ≠ [] →
        ¬ falsy table ∧ confirmation = table) := by
  refine ⟨?_, ?_, ?_, ?_⟩
  · intro db table column cutoff h
    unfold handle_row_delete at h
    by_cases hc : (falsy table ∨ falsy column ∨ cutoff.isNone)
    · rw [if_pos hc] at h
      exact absurd rfl h
    · push_neg at hc
      exact ⟨hc.1, hc.2.1, fun hn => hc.2.2 (by rw [hn]; rfl)⟩
  · intro db table col dtype h
    unfold handle_add_column at h
    by_cases hc : (falsy table ∨ falsy col ∨ falsy dtype)
    · rw [if_pos hc] at h
      exact absurd rfl h
    · push_neg at hc
      exact ⟨hc.1, hc.2.1, hc.2.2⟩
  · intro db table col confirm h
    unfold handle_drop_column at h
    by_cases hc : (falsy table ∨ falsy col ∨ falsy confirm)
    · rw [if_pos hc] at h
      exact absurd rfl h
    · rw [if_neg hc] at h
      by_cases hne : col ≠ confirm
      · rw [if_pos hne] at h
        exact absurd rfl h
      · push_neg at hc
        exact ⟨⟨hc.1, hc.2.1, hc.2.2⟩, not_ne_iff.mp hne⟩
  · intro db table confirmation h
    unfold handle_table_delete at h
    by_cases hc : (falsy table ∨ confirmation ≠ table)
    · rw [if_pos hc] at h
      exact absurd rfl h
    · push_neg at hc
      exact hc

theorem C2_amended_gated_witness :
    ¬ falsy (some "events") ∧ ¬ falsy (some "created_at") ∧
      some (⟨2023, 1, 1⟩ : Date) ≠ none :=
  C2_amended_gated.1 okDb (some "events") (some "created_at") (some ⟨2023, 1, 1⟩) (by decide)

/-- Claim C3 is refuted at drop-table invoked with an unselected table: the
condition is detected before any statement executes and no database call is
made, but it is surfaced as a danger-level (error) alert — the source's
line 337 — not as a warning-level message as the claim requires. -/
theorem C3_counterexample :
    handle_table_delete okDb none (some "users") =
      ⟨[], .ok ⟨"❌ Table name confirmation mismatch.", Color.danger⟩⟩ ∧
    Color.danger ≠ Color.warning :=
  ⟨rfl, by decide⟩

/-- Claim C3 (amended): every invocation with a missing required input or a
confirmation mismatch is detected before any statement executes and no
database call is made; missing inputs in row-delete, add-column and
drop-column surface as warning-level messages, while confirmation
mismatches — and the drop-table missing-table case, which shares the
mismatch branch — surface as danger-level messages. -/
theorem C3_amended_validation :
    (∀ (db : Db) (table column : Option String) (cutoff : Option Date),
        (falsy table ∨ falsy column ∨ cutoff.isNone) →
        handle_row_delete db table column cutoff =
          ⟨[], .ok ⟨"Select table, column and date.", Color.warning⟩⟩) ∧
    (∀ (db : Db) (table col dtype : Option String),
        (falsy table ∨ falsy col ∨ falsy dtype) →
        handle_add_column db table col dtype =
          ⟨[], .ok ⟨"Provide table, column name and type.", Color.warning⟩⟩) ∧
    (∀ (db : Db) (table col confirm : Option String),
        (falsy table ∨ falsy col ∨ falsy confirm) →
        handle_drop_column db table col confirm =
          ⟨[], .ok ⟨"Select column and confirm name.", Color.warning⟩⟩) ∧
    (∀ (db : Db) (table col confirm : Option String),
        ¬(falsy table ∨ falsy col ∨ falsy confirm) → col ≠ confirm →
        handle_drop_column db table col confirm =
          ⟨[], .ok ⟨"❌ Column name confirmation mismatch.", Color.danger⟩⟩) ∧
    (∀ (db : Db) (table confirmation : Option String),
        (falsy table ∨ confirmation ≠ table) →
        handle_table_delete db table confirmation =
          ⟨[], .ok ⟨"❌ Table name confirmation mismatch.", Color.danger⟩⟩) := by
  refine ⟨?_, ?_, ?_, ?_, ?_⟩
  · intro db table column cutoff h
    unfold handle_row_delete
    rw [if_pos h]
  · intro db table col dtype h
    unfold handle_add_column
    rw [if_pos h]
  · intro db table col confirm h
    unfold handle_drop_column
    rw [if_pos h]
  · intro db table col confirm h1 h2
    unfold handle_drop_column
    rw [if_neg h1, if_pos h2]
  · intro db table confirmation h
    unfold handle_table_delete
    rw [if_pos h]

theorem C3_amended_validation_witness :
    handle_row_delete okDb (some "events") (some "created_at") none =
      ⟨[], .ok ⟨"Select table, column and date.", Color.warning⟩⟩ :=
  C3_amended_validation.1 okDb (some "events") (some "created_at") none (by decide)

/-- Claim C4 is refuted: a database failure during delete-rows-before-date
or drop-table is not caught — neither handler has a try/except (source
lines 282-287 and 335-340) — so the exception propagates out of the
callback instead of being surfaced as an error-level message. -/
theorem C4_counterexample :
    (handle_row_delete failDb (some "events") (some "created_at")
        (some ⟨2023, 1, 1⟩)).outcome = .error "relation events does not exist" ∧
    (handle_table_delete failDb (some "events") (some "events")).outcome =
      .error "relation events does not exist" :=
  ⟨rfl, rfl⟩

/-- Claim C4 (amended): a database failure during add-column or drop-column
is caught at the point of execution, not retried, and its message is
surfaced verbatim as a danger-level alert; a database failure during
delete-rows or drop-table is not caught and propagates out of the callback.
No operation ever issues more than one statement (no retry). -/
theorem C4_amended_error_handling :
    (∀ (db : Db) (t c ty e : String), t ≠ "" → c ≠ "" → ty ≠ "" →
        db (add_column t c ty) = .error e →
        handle_add_column db (some t) (some c) (some ty) =
          ⟨[add_column t c ty], .ok ⟨e, Color.danger⟩⟩) ∧
    (∀ (db : Db) (t c e : String), t ≠ "" → c ≠ "" →
        db (drop_column t c) = .error e →
        handle_drop_column db (some t) (some c) (some c) =
          ⟨[drop_column t c], .ok ⟨e, Color.danger⟩⟩) ∧
    (∀ (db : Db) (t c : String) (d : Date) (e : String), t ≠ "" → c ≠ "" →
        db (delete_before_date t c d) = .error e →
        handle_row_delete db (some t) (some c) (some d) =
          ⟨[delete_before_date t c d], .error e⟩) ∧
    (∀ (db : Db) (t e : String), t ≠ "" →
        db (drop_table t) = .error e →
        handle_table_delete db (some t) (some t) =
          ⟨[drop_table t], .error e⟩) ∧
    (∀ (db : Db) (table column : Option String) (cutoff : Option Date),
        (handle_row_delete db table column cutoff).calls.length ≤ 1) ∧
    (∀ (db : Db) (table col dtype : Option String),
        (handle_add_column db table col dtype).calls.length ≤ 1) ∧
    (∀ (db : Db) (table col confirm : Option String),
        (handle_drop_column db table col confirm).calls.length ≤ 1) ∧
    (∀ (db : Db) (table confirmation : Option String),
        (handle_table_delete db table confirmation).calls.length ≤ 1) := by
  refine ⟨?_, ?_, ?_, ?_, ?_, ?_, ?_, ?_⟩
  · intro db t c ty e ht hc hty hdb
    have h1 : ¬(falsy (some t) ∨ falsy (some c) ∨ falsy (some ty)) := by
      simp [falsy, ht, hc, hty]
    unfold handle_add_column
    rw [if_neg h1]
    simp only [Option.getD_some]
    rw [hdb]
  · intro db t c e ht hc hdb
    have h1 : ¬(falsy (some t) ∨ falsy (some c) ∨ falsy (some c)) := by
      simp [falsy, ht, hc]
    have h2 : ¬((some c : Option String) ≠ some c) := fun h => h rfl
    unfold handle_drop_column
    rw [if_neg h1, if_neg h2]
    simp only [Option.getD_some]
    rw [hdb]
  · intro db t c d e ht hc hdb
    have h1 : ¬(falsy (some t) ∨ falsy (some c) ∨ (some d).isNone) := by
      simp [falsy, ht, hc]
    unfold handle_row_delete
    rw [if_neg h1]
    simp only [Option.getD_some]
    rw [hdb]
  · intro db t e ht hdb
    have h1 : ¬(falsy (some t) ∨ (some t : Option String) ≠ some t) := by
      simp [falsy, ht]
    unfold handle_table_delete
    rw [if_neg h1]
    simp only [Option.getD_some]
    rw [hdb]
  · intro db table column cutoff
    unfold handle_row_delete
    split
    · simp
    · dsimp only
      split <;> simp
  · intro db table col dtype
    unfold handle_add_column
    split
    · simp
    · dsimp only
      split <;> simp
  · intro db table col confirm
    unfold handle_drop_column
    split
    · simp
    · split
      · simp
      · dsimp only
        split <;> simp
  · intro db table confirmation
    unfold handle_table_delete
    split
    · simp
    · dsimp only
      split <;> simp

theorem C4_amended_error_handling_witness :
    handle_add_column failDb (some "users") (some "notes") (some "TEXT") =
      ⟨[add_column "users" "notes" "TEXT"],
       .ok ⟨"relation events does not exist", Color.danger⟩⟩ :=
  C4_amended_error_handling.1 failDb "users" "notes" "TEXT"
    "relation events does not exist" (by decide) (by decide) (by decide) rfl

/-- A sample catalog for the C6 counterexample: one public table with one
column. -/
def cat0 : Catalog :=
  { pg_tables := [{ schemaname := "public", tablename := "users" }],
    info_columns := [{ table_schema := "public", table_name := "users",
                       column_name := "id", data_type := "integer" }] }

/-- Claim C6 is refuted for the add-column operation: its column name comes
from the free-text widget new_column_name, not from any value enumerated by
the Schema Inspector.  On this invocation the generated ALTER TABLE
statement embeds the identifier bobby in its text although bobby appears in
no inspector enumeration of the catalog. -/
theorem C6_counterexample :
    widgetKind "new_column_name" = some WidgetKind.textInput ∧
    (handle_add_column okDb (some "users") (some "bobby") (some "TEXT")).calls =
      [add_column "users" "bobby" "TEXT"] ∧
    Frag.ident "bobby" ∈ (add_column "users" "bobby" "TEXT").frags ∧
    "bobby" ∉ fetch_tables cat0 ∧
    "bobby" ∉ fetch_all_columns cat0 "users" ∧
    "bobby" ∉ fetch_date_columns cat0 "users" := by
  refine ⟨rfl, rfl, ?_, ?_, ?_, ?_⟩ <;> decide

/-- Claim C6 (amended): every generated mutation statement substitutes its
table and column identifiers (and the add-column data type) directly into
the statement text, and only the cutoff date value is bound as a parameter.
The table dropdown and both column dropdowns are populated from Schema
Inspector enumerations, so the drop-column column and all table identifiers
have that provenance; the add-column column name, however, is free operator
text from the new_column_name input. -/
theorem C6_amended_identifiers :
    (∀ (t c : String) (d : Date),
        delete_before_date t c d =
          { frags := [.lit "DELETE FROM ", .ident t, .lit " WHERE ", .ident c, .lit " < %s"],
            params := [d] }) ∧
    (∀ t c ty : String,
        add_column t c ty =
          { frags := [.lit "ALTER TABLE ", .ident t, .lit " ADD COLUMN ", .ident c,
                      .lit " ", .ident ty],
            params := [] }) ∧
    (∀ t c : String,
        drop_column t c =
          { frags := [.lit "ALTER TABLE ", .ident t, .lit " DROP COLUMN ", .ident c],
            params := [] }) ∧
    (∀ t : String, drop_table t = { frags := [.lit "DROP TABLE ", .ident t], params := [] }) ∧
    (∀ cat : Catalog, (table_dd_options cat).map DropdownOption.value = fetch_tables cat) ∧
    (∀ (cat : Catalog) (t : String), t ≠ "" →
        (update_columns cat (some t)).all_options.map DropdownOption.value =
            fetch_all_columns cat t ∧
        (update_columns cat (some t)).date_options.map DropdownOption.value =
            fetch_date_columns cat t) ∧
    widgetKind "new_column_name" = some WidgetKind.textInput := by
  refine ⟨fun t c d => rfl, fun t c ty => rfl, fun t c => rfl, fun t => rfl, ?_, ?_, rfl⟩
  · intro cat
    rw [table_dd_options, List.map_map]
    exact List.map_id _
  · intro cat t ht
    unfold update_columns
    rw [if_neg (not_falsy_some ht)]
    dsimp only [Option.getD_some]
    refine ⟨?_, ?_⟩ <;> rw [List.map_map] <;> exact List.map_id _

theorem C6_amended_identifiers_witness :
    (update_columns cat0 (some "users")).all_options.map DropdownOption.value =
        fetch_all_columns cat0 "users" ∧
    (update_columns cat0 (some "users")).date_options.map DropdownOption.value =
        fetch_date_columns cat0 "users" :=
  C6_amended_identifiers.2.2.2.2.2.1 cat0 "users" (by decide)

/-- Witness for C5: the spec's example rows and cutoff; the row equal to
the cutoff is kept, and the handler reports the database rowcount. -/
theorem C5_delete_strictly_before_witness :
    (⟨2023, 1, 1⟩ : Date) ∈
      (execDeleteBefore [⟨2022, 12, 31⟩, ⟨2023, 1, 1⟩] ⟨2023, 1, 1⟩).1 ∧
    handle_row_delete okDb (some "events") (some "created_at") (some ⟨2023, 1, 1⟩) =
      ⟨[delete_before_date "events" "created_at" ⟨2023, 1, 1⟩],
       .ok ⟨"✅ Deleted 1 rows from events", Color.success⟩⟩ :=
  ⟨(C5_delete_strictly_before.1 [⟨2022, 12, 31⟩, ⟨2023, 1, 1⟩] ⟨2023, 1, 1⟩).2.2.1
      ⟨2023, 1, 1⟩ (by decide) rfl,
   (C5_delete_strictly_before.1 [⟨2022, 12, 31⟩, ⟨2023, 1, 1⟩] ⟨2023, 1, 1⟩).2.2.2
      okDb "events" "created_at" 1 (by decide) (by decide) rfl⟩

end DbCleanup
